import Mathlib

/-!
Shallow embedding of the typed MIDI event model of `src/seq.rs`
(alsa-rs sequencer bindings), together with proofs about the frozen
claims on that code.

Modelling conventions:
* C machine integers are modelled as `Nat` (unsigned fields) or `Int`
  (signed fields); truncating casts such as `as u8` or `as c_uint`
  are written explicitly as `% 256` / `% 2 ^ 32` style operations.
* Code that can panic is modelled with the `PanicOr` type below;
  code returning `Option` keeps `Option`.
* The C unions inside `snd_seq_event_t` are modelled as follows: the
  timestamp union (a tick `c_uint` overlapping the first word of a
  `sec`/`nsec` pair) is modelled by its two 32-bit words, which is
  exactly the aliasing the source relies on; the payload data union is
  modelled as a product of its members, because the source guarantees
  (and we prove, claim C1) that exactly one member is active per tag,
  and no code path reads a member it did not write.
-/

/-- Result of running code that may panic: either a normal value or a panic. -/
inductive PanicOr (α : Type) where
  | panic : PanicOr α
  | ok : α → PanicOr α
  deriving DecidableEq, Repr

/-- Functorial action on the non-panic value. -/
def PanicOr.map {α β : Type} (f : α → β) : PanicOr α → PanicOr β
  | .panic => .panic
  | .ok a => .ok (f a)

/-- The 59-tag event type enumeration (`alsa_enum!` block of `seq.rs`). -/
inductive EventType where
  | Bounce | Chanpress | ClientChange | ClientExit | ClientStart | Clock | Continue
  | Control14 | Controller | Echo | Keypress | Keysign | None | Nonregparam | Note
  | Noteoff | Noteon | Oss | Pgmchange | Pitchbend | PortChange | PortExit | PortStart
  | PortSubscribed | PortUnsubscribed | Qframe | QueueSkew | Regparam | Reset | Result
  | Sensing | SetposTick | SetposTime | Songpos | Songsel | Start | Stop | SyncPos
  | Sysex | System | Tempo | Tick | Timesign | TuneRequest
  | Usr0 | Usr1 | Usr2 | Usr3 | Usr4 | Usr5 | Usr6 | Usr7 | Usr8 | Usr9
  | UsrVar0 | UsrVar1 | UsrVar2 | UsrVar3 | UsrVar4
  deriving DecidableEq, Fintype, Repr

/- Constants from the top of seq.rs (those the event model uses). -/

def SND_SEQ_ADDRESS_SUBSCRIBERS : Nat := 254
def SND_SEQ_ADDRESS_UNKNOWN : Nat := 253
def SND_SEQ_QUEUE_DIRECT : Nat := 253
def SND_SEQ_TIME_MODE_MASK : Nat := 2
def SND_SEQ_TIME_STAMP_MASK : Nat := 1
def SND_SEQ_TIME_MODE_REL : Nat := 2
def SND_SEQ_TIME_STAMP_REAL : Nat := 1
def SND_SEQ_TIME_STAMP_TICK : Nat := 0
def SND_SEQ_TIME_MODE_ABS : Nat := 0
def SND_SEQ_PRIORITY_HIGH : Nat := 16
def SND_SEQ_EVENT_LENGTH_FIXED : Nat := 0
def SND_SEQ_EVENT_LENGTH_MASK : Nat := 12
def SND_SEQ_EVENT_LENGTH_VARIABLE : Nat := 4
def SND_SEQ_EVENT_LENGTH_VARUSR : Nat := 8

/-- Truncating cast of a signed integer to an unsigned byte (`as u8` /
`as c_uchar` in the source); two-complement truncation is Euclidean mod. -/
def u8cast (x : Int) : Nat := (x % 256).toNat

/-- The two 32-bit words of the `snd_seq_timestamp_t` union: `w0` is both
the tick counter and `tv_sec`; `w1` is `tv_nsec`. -/
structure TimeStorage where
  w0 : Nat
  w1 : Nat
  deriving DecidableEq, Repr

/-- `snd_seq_ev_note_t`: five unsigned fields. -/
structure NoteData where
  channel : Nat
  note : Nat
  velocity : Nat
  off_velocity : Nat
  duration : Nat
  deriving DecidableEq, Repr

/-- `snd_seq_ev_ctrl_t`: channel byte, unsigned param, signed value. -/
structure CtrlData where
  channel : Nat
  param : Nat
  value : Int
  deriving DecidableEq, Repr

/-- `snd_seq_addr_t` as stored in the record: two `c_uchar` fields. -/
structure AddrData where
  client : Nat
  port : Nat
  deriving DecidableEq, Repr

/-- `snd_seq_connect_t` as stored in the record. -/
structure ConnectData where
  sender : AddrData
  dest : AddrData
  deriving DecidableEq, Repr

/-- The `param` union of `snd_seq_ev_queue_control_t`, modelled as a product
(`value` is `c_int`, `position` is `c_uint`, `time` is the timestamp union). -/
structure QueueParam where
  value : Int
  position : Nat
  time : TimeStorage
  deriving DecidableEq, Repr

/-- `snd_seq_ev_queue_control_t` as stored in the record. -/
structure QueueData where
  queue : Nat
  param : QueueParam
  deriving DecidableEq, Repr

/-- `snd_seq_result_t` as stored in the record: two `c_int` fields. -/
structure ResultData where
  event : Int
  result : Int
  deriving DecidableEq, Repr

/-- The `EvExtPacked` view of the data union for variable-length events:
a length field and a pointer. The pointer is modelled denotationally by
the byte sequence it points at. -/
structure ExtData where
  len : Nat
  ptr : List Nat
  deriving DecidableEq, Repr

/-- The event data union `Union_Unnamed10`, modelled as a product of its
members (see the module docstring for why this is faithful here). -/
structure DataU where
  note : NoteData
  ctrl : CtrlData
  addr : AddrData
  connect : ConnectData
  queueC : QueueData
  result : ResultData
  raw8 : List Nat
  ext : ExtData
  deriving DecidableEq, Repr

/-- The all-zero data union produced by `mem::zeroed()`. -/
def DataU.zeroed : DataU :=
  { note := ⟨0, 0, 0, 0, 0⟩, ctrl := ⟨0, 0, 0⟩, addr := ⟨0, 0⟩,
    connect := ⟨⟨0, 0⟩, ⟨0, 0⟩⟩, queueC := ⟨0, ⟨0, 0, ⟨0, 0⟩⟩⟩,
    result := ⟨0, 0⟩, raw8 := List.replicate 12 0, ext := ⟨0, []⟩ }

/-- The fixed-size native event record `snd_seq_event_t`. The `_type` byte
is modelled by the `EventType` value it encodes. -/
structure EventRec where
  etype : EventType
  flags : Nat
  tag : Nat
  queue : Nat
  source : AddrData
  dest : AddrData
  time : TimeStorage
  data : DataU
  deriving DecidableEq, Repr

/-- The zeroed record with the given `_type` byte, as built by `Event::new`
and `Event::new_ext` (`mem::zeroed()` followed by setting `_type`). -/
def EventRec.zeroed (t : EventType) : EventRec :=
  { etype := t, flags := 0, tag := 0, queue := 0, source := ⟨0, 0⟩,
    dest := ⟨0, 0⟩, time := ⟨0, 0⟩, data := DataU.zeroed }

/-- `std::borrow::Cow<[u8]>`: a borrowed or owned byte buffer. -/
inductive Cow where
  | borrowed : List Nat → Cow
  | owned : List Nat → Cow
  deriving DecidableEq, Repr

/-- The byte view of a `Cow` buffer. -/
def Cow.bytes : Cow → List Nat
  | .borrowed b => b
  | .owned b => b

/-- `Cow::into_owned` wrapped back into a `Cow::Owned`, as done by
`Event::into_owned`. -/
def Cow.to_owned (c : Cow) : Cow := .owned c.bytes

/-- The `Event` wrapper: native record, event type, optional variable-length
buffer (fields `.0`, `.1`, `.2` of the Rust tuple struct). -/
structure Event where
  raw : EventRec
  typ : EventType
  ext : Option Cow
  deriving DecidableEq, Repr

/-- `Event::get_length_flag`. -/
def Event.get_length_flag (t : EventType) : Nat :=
  match t with
  | .Sysex => SND_SEQ_EVENT_LENGTH_VARIABLE
  | .Bounce => SND_SEQ_EVENT_LENGTH_VARIABLE
  | .UsrVar0 => SND_SEQ_EVENT_LENGTH_VARUSR
  | .UsrVar1 => SND_SEQ_EVENT_LENGTH_VARUSR
  | .UsrVar2 => SND_SEQ_EVENT_LENGTH_VARUSR
  | .UsrVar3 => SND_SEQ_EVENT_LENGTH_VARUSR
  | .UsrVar4 => SND_SEQ_EVENT_LENGTH_VARUSR
  | _ => SND_SEQ_EVENT_LENGTH_FIXED

/-- `Event::has_ext_data`. -/
def Event.has_ext_data (t : EventType) : Bool :=
  decide (Event.get_length_flag t ≠ SND_SEQ_EVENT_LENGTH_FIXED)

/- The per-shape `EventData::has_data` implementations. -/

/-- `impl EventData for ()`, `has_data`. -/
def unit_has_data (e : EventType) : Bool :=
  match e with
  | .TuneRequest => true
  | .Reset => true
  | .Sensing => true
  | .None => true
  | _ => false

/-- `impl EventData for [u8; 12]`, `has_data`. -/
def raw8_has_data (e : EventType) : Bool :=
  match e with
  | .Echo => true
  | .Oss => true
  | .Usr0 => true
  | .Usr1 => true
  | .Usr2 => true
  | .Usr3 => true
  | .Usr4 => true
  | .Usr5 => true
  | .Usr6 => true
  | .Usr7 => true
  | .Usr8 => true
  | .Usr9 => true
  | _ => false

/-- The `EvNote` payload struct. -/
structure EvNote where
  channel : Nat
  note : Nat
  velocity : Nat
  off_velocity : Nat
  duration : Nat
  deriving DecidableEq, Repr

/-- `impl EventData for EvNote`, `has_data`. -/
def EvNote.has_data (e : EventType) : Bool :=
  match e with
  | .Note => true
  | .Noteon => true
  | .Noteoff => true
  | .Keypress => true
  | _ => false

/-- The `EvCtrl` payload struct. -/
structure EvCtrl where
  channel : Nat
  param : Nat
  value : Int
  deriving DecidableEq, Repr

/-- `impl EventData for EvCtrl`, `has_data`. -/
def EvCtrl.has_data (e : EventType) : Bool :=
  match e with
  | .Controller => true
  | .Pgmchange => true
  | .Chanpress => true
  | .Pitchbend => true
  | .Control14 => true
  | .Nonregparam => true
  | .Regparam => true
  | .Songpos => true
  | .Songsel => true
  | .Qframe => true
  | .Timesign => true
  | .Keysign => true
  | _ => false

/-- The public `Addr` struct: two `i32` fields. -/
structure Addr where
  client : Int
  port : Int
  deriving DecidableEq, Repr

/-- `impl EventData for Addr`, `has_data`. -/
def Addr.has_data (e : EventType) : Bool :=
  match e with
  | .ClientStart => true
  | .ClientExit => true
  | .ClientChange => true
  | .PortStart => true
  | .PortExit => true
  | .PortChange => true
  | _ => false

/-- The public `Connect` struct. -/
structure Connect where
  sender : Addr
  dest : Addr
  deriving DecidableEq, Repr

/-- `impl EventData for Connect`, `has_data`. -/
def Connect.has_data (e : EventType) : Bool :=
  match e with
  | .PortSubscribed => true
  | .PortUnsubscribed => true
  | _ => false

/-- `std::time::Duration`, modelled by its seconds and subsecond
nanoseconds; the Rust type keeps `nanos < 10 ^ 9` as an invariant. -/
structure Duration where
  secs : Nat
  nanos : Nat
  deriving DecidableEq, Repr

/-- `Duration::new`, which normalizes excess nanoseconds into seconds. -/
def Duration.new (s n : Nat) : Duration :=
  ⟨s + n / 1000000000, n % 1000000000⟩

/-- `Duration::as_secs`. -/
def Duration.as_secs (d : Duration) : Nat := d.secs

/-- `Duration::subsec_nanos`. -/
def Duration.subsec_nanos (d : Duration) : Nat := d.nanos

/-- The generic `EvQueueControl<T>` payload struct. -/
structure EvQueueControl (T : Type) where
  queue : Int
  value : T
  deriving DecidableEq, Repr

/-- `impl EventData for EvQueueControl<()>`, `has_data`. -/
def qc_unit_has_data (e : EventType) : Bool :=
  match e with
  | .Start => true
  | .Continue => true
  | .Stop => true
  | .Clock => true
  | .QueueSkew => true
  | _ => false

/-- `impl EventData for EvQueueControl<i32>`, `has_data`. -/
def qc_i32_has_data (e : EventType) : Bool :=
  match e with
  | .Tempo => true
  | _ => false

/-- `impl EventData for EvQueueControl<u32>`, `has_data`. -/
def qc_u32_has_data (e : EventType) : Bool :=
  match e with
  | .SyncPos => true
  | .Tick => true
  | .SetposTick => true
  | _ => false

/-- `impl EventData for EvQueueControl<time::Duration>`, `has_data`. -/
def qc_duration_has_data (e : EventType) : Bool :=
  match e with
  | .SetposTime => true
  | _ => false

/-- The public `EvResult` struct: two `i32` fields. -/
structure EvResult where
  event : Int
  result : Int
  deriving DecidableEq, Repr

/-- `impl EventData for EvResult`, `has_data`. -/
def EvResult.has_data (e : EventType) : Bool :=
  match e with
  | .System => true
  | .Result => true
  | _ => false

/-- The closed set of fixed payload shapes implementing `EventData`. -/
inductive Shape where
  | unit | raw8 | note | ctrl | addr | connect
  | qcUnit | qcI32 | qcU32 | qcDuration | result
  deriving DecidableEq, Fintype, Repr

/-- Dispatch of `EventData::has_data` over the shape. -/
def Shape.has_data : Shape → EventType → Bool
  | .unit => unit_has_data
  | .raw8 => raw8_has_data
  | .note => EvNote.has_data
  | .ctrl => EvCtrl.has_data
  | .addr => Addr.has_data
  | .connect => Connect.has_data
  | .qcUnit => qc_unit_has_data
  | .qcI32 => qc_i32_has_data
  | .qcU32 => qc_u32_has_data
  | .qcDuration => qc_duration_has_data
  | .result => EvResult.has_data

/-- All eleven fixed payload shapes, in the order of the `seq_has_data` test. -/
def allShapes : List Shape :=
  [.unit, .raw8, .note, .ctrl, .addr, .connect,
   .qcUnit, .qcI32, .qcU32, .qcDuration, .result]

/-- The number of payload classifications that apply to a tag: the eleven
fixed shapes plus the variable-length classification `Event::has_ext_data`
(counted as one shape, as in the `seq_has_data` test). -/
def shapeCount (t : EventType) : Nat :=
  (allShapes.map (fun D => D.has_data t)).count true
    + (if Event.has_ext_data t then 1 else 0)

/- The per-shape `EventData::set_data` and `EventData::get_data`
implementations. In the source they take the whole `Event` but touch only
its `data` union, so they are modelled on `DataU`. -/

/-- `impl EventData for ()`: `set_data` writes nothing. -/
def unit_set_data (_ : Unit) (d : DataU) : DataU := d

/-- `impl EventData for ()`: `get_data` reads nothing. -/
def unit_get_data (_ : DataU) : Unit := ()

/-- `impl EventData for [u8; 12]`: `set_data` stores the 12 bytes. -/
def raw8_set_data (b : List Nat) (d : DataU) : DataU := { d with raw8 := b }

/-- `impl EventData for [u8; 12]`: `get_data` reads the 12 bytes. -/
def raw8_get_data (d : DataU) : List Nat := d.raw8

/-- `impl EventData for EvNote`: all five fields are written by identity
casts (`u8 as c_uchar`, `u32 as c_uint`). -/
def EvNote.set_data (n : EvNote) (d : DataU) : DataU :=
  { d with note := { channel := n.channel, note := n.note, velocity := n.velocity,
                     off_velocity := n.off_velocity, duration := n.duration } }

/-- `impl EventData for EvNote`: `get_data`. -/
def EvNote.get_data (d : DataU) : EvNote :=
  { channel := d.note.channel, note := d.note.note, velocity := d.note.velocity,
    off_velocity := d.note.off_velocity, duration := d.note.duration }

/-- `impl EventData for EvCtrl`: identity casts on all three fields. -/
def EvCtrl.set_data (c : EvCtrl) (d : DataU) : DataU :=
  { d with ctrl := { channel := c.channel, param := c.param, value := c.value } }

/-- `impl EventData for EvCtrl`: `get_data`. -/
def EvCtrl.get_data (d : DataU) : EvCtrl :=
  { channel := d.ctrl.channel, param := d.ctrl.param, value := d.ctrl.value }

/-- `impl EventData for Addr`: `set_data` truncates both `i32` fields to
`c_uchar` (`self.client as c_uchar`). -/
def Addr.set_data (a : Addr) (d : DataU) : DataU :=
  { d with addr := { client := u8cast a.client, port := u8cast a.port } }

/-- `impl EventData for Addr`: `get_data` widens the bytes back to `i32`. -/
def Addr.get_data (d : DataU) : Addr :=
  { client := (d.addr.client : Int), port := (d.addr.port : Int) }

/-- `impl EventData for Connect`: truncates all four fields to `c_uchar`. -/
def Connect.set_data (c : Connect) (d : DataU) : DataU :=
  { d with connect := { sender := { client := u8cast c.sender.client, port := u8cast c.sender.port },
                        dest := { client := u8cast c.dest.client, port := u8cast c.dest.port } } }

/-- `impl EventData for Connect`: `get_data`. -/
def Connect.get_data (d : DataU) : Connect :=
  { sender := { client := (d.connect.sender.client : Int), port := (d.connect.sender.port : Int) },
    dest := { client := (d.connect.dest.client : Int), port := (d.connect.dest.port : Int) } }

/-- `impl EventData for EvQueueControl<()>`: writes only the queue byte
(`self.queue as c_uchar`). -/
def qc_unit_set_data (q : EvQueueControl Unit) (d : DataU) : DataU :=
  { d with queueC := { d.queueC with queue := u8cast q.queue } }

/-- `impl EventData for EvQueueControl<()>`: `get_data`. -/
def qc_unit_get_data (d : DataU) : EvQueueControl Unit :=
  { queue := (d.queueC.queue : Int), value := () }

/-- `impl EventData for EvQueueControl<i32>`: queue byte plus the signed
`param.value` member (identity cast `i32 as c_int`). -/
def qc_i32_set_data (q : EvQueueControl Int) (d : DataU) : DataU :=
  { d with queueC := { queue := u8cast q.queue,
                       param := { d.queueC.param with value := q.value } } }

/-- `impl EventData for EvQueueControl<i32>`: `get_data`. -/
def qc_i32_get_data (d : DataU) : EvQueueControl Int :=
  { queue := (d.queueC.queue : Int), value := d.queueC.param.value }

/-- `impl EventData for EvQueueControl<u32>`: queue byte plus the unsigned
`param.position` member (identity cast `u32 as c_uint`). -/
def qc_u32_set_data (q : EvQueueControl Nat) (d : DataU) : DataU :=
  { d with queueC := { queue := u8cast q.queue,
                       param := { d.queueC.param with position := q.value } } }

/-- `impl EventData for EvQueueControl<u32>`: `get_data`. -/
def qc_u32_get_data (d : DataU) : EvQueueControl Nat :=
  { queue := (d.queueC.queue : Int), value := d.queueC.param.position }

/-- `impl EventData for EvQueueControl<time::Duration>`: queue byte plus
the `param.time` member; `as_secs() as c_uint` truncates mod `2 ^ 32`,
`subsec_nanos() as c_uint` is an identity cast. -/
def qc_duration_set_data (q : EvQueueControl Duration) (d : DataU) : DataU :=
  { d with queueC := { queue := u8cast q.queue,
                       param := { d.queueC.param with
                                  time := { w0 := q.value.as_secs % 2 ^ 32,
                                            w1 := q.value.subsec_nanos } } } }

/-- `impl EventData for EvQueueControl<time::Duration>`: `get_data` rebuilds
the duration with `Duration::new`. -/
def qc_duration_get_data (d : DataU) : EvQueueControl Duration :=
  { queue := (d.queueC.queue : Int),
    value := Duration.new d.queueC.param.time.w0 d.queueC.param.time.w1 }

/-- `impl EventData for EvResult`: identity casts (`i32 as c_int`). -/
def EvResult.set_data (r : EvResult) (d : DataU) : DataU :=
  { d with result := { event := r.event, result := r.result } }

/-- `impl EventData for EvResult`: `get_data`. -/
def EvResult.get_data (d : DataU) : EvResult :=
  { event := d.result.event, result := d.result.result }

/-- A fixed-shape payload value: one constructor per `EventData` impl. -/
inductive Payload where
  | unit : Payload
  | raw8 : List Nat → Payload
  | note : EvNote → Payload
  | ctrl : EvCtrl → Payload
  | addr : Addr → Payload
  | connect : Connect → Payload
  | qcUnit : EvQueueControl Unit → Payload
  | qcI32 : EvQueueControl Int → Payload
  | qcU32 : EvQueueControl Nat → Payload
  | qcDuration : EvQueueControl Duration → Payload
  | result : EvResult → Payload
  deriving DecidableEq, Repr

/-- The shape of a payload value. -/
def Payload.shape : Payload → Shape
  | .unit => .unit
  | .raw8 _ => .raw8
  | .note _ => .note
  | .ctrl _ => .ctrl
  | .addr _ => .addr
  | .connect _ => .connect
  | .qcUnit _ => .qcUnit
  | .qcI32 _ => .qcI32
  | .qcU32 _ => .qcU32
  | .qcDuration _ => .qcDuration
  | .result _ => .result

/-- `D::has_data` for the shape of the given payload value. -/
def Payload.has_data (p : Payload) (t : EventType) : Bool :=
  p.shape.has_data t

/-- `D::set_data` dispatched over the payload shape. -/
def Payload.set_data : Payload → DataU → DataU
  | .unit => unit_set_data ()
  | .raw8 b => raw8_set_data b
  | .note n => EvNote.set_data n
  | .ctrl c => EvCtrl.set_data c
  | .addr a => Addr.set_data a
  | .connect c => Connect.set_data c
  | .qcUnit q => qc_unit_set_data q
  | .qcI32 q => qc_i32_set_data q
  | .qcU32 q => qc_u32_set_data q
  | .qcDuration q => qc_duration_set_data q
  | .result r => EvResult.set_data r

/-- `D::get_data` dispatched over a shape, wrapped back into `Payload`. -/
def Shape.read : Shape → DataU → Payload
  | .unit => fun _ => .unit
  | .raw8 => fun d => .raw8 (raw8_get_data d)
  | .note => fun d => .note (EvNote.get_data d)
  | .ctrl => fun d => .ctrl (EvCtrl.get_data d)
  | .addr => fun d => .addr (Addr.get_data d)
  | .connect => fun d => .connect (Connect.get_data d)
  | .qcUnit => fun d => .qcUnit (qc_unit_get_data d)
  | .qcI32 => fun d => .qcI32 (qc_i32_get_data d)
  | .qcU32 => fun d => .qcU32 (qc_u32_get_data d)
  | .qcDuration => fun d => .qcDuration (qc_duration_get_data d)
  | .result => fun d => .result (EvResult.get_data d)

/-- `Event::new`: panics (`assert!`) when the tag carries variable-length
data; otherwise zeroes the record, sets the `_type` byte, ors in the
length flag and lets the payload codec write the data union. (The
`debug_assert!(D::has_data(t))` of the source is compiled out in release
builds and is not part of the modelled behavior.) -/
def Event.new (t : EventType) (p : Payload) : PanicOr Event :=
  if Event.has_ext_data t then .panic
  else
    .ok { raw := { EventRec.zeroed t with
                   flags := 0 ||| Event.get_length_flag t,
                   data := p.set_data DataU.zeroed },
          typ := t, ext := none }

/-- `Event::new_ext`: panics (`assert!`) when the tag does not carry
variable-length data; otherwise zeroes the record, sets the `_type` byte,
ors in the length flag and stores the buffer (owned or borrowed). -/
def Event.new_ext (t : EventType) (data : Cow) : PanicOr Event :=
  if Event.has_ext_data t then
    .ok { raw := { EventRec.zeroed t with
                   flags := 0 ||| Event.get_length_flag t },
          typ := t, ext := some data }
  else .panic

/-- `Event::into_owned`: copies a borrowed buffer into an owned one,
keeping record and type unchanged. -/
def Event.into_owned (e : Event) : Event :=
  { raw := e.raw, typ := e.typ, ext := e.ext.map Cow.to_owned }

/-- `Event::ensure_buf`: for variable-length tags, rewrites the `len` and
`ptr` fields of the data union from the current buffer (`len` is a
`c_uint`, hence the truncation); panics when a variable-length tag has no
buffer; early return for fixed tags. -/
def Event.ensure_buf (e : Event) : Option Event :=
  if Event.has_ext_data e.typ then
    match e.ext with
    | some cow =>
        some { e with raw := { e.raw with
                 data := { e.raw.data with
                   ext := { len := cow.bytes.length % 2 ^ 32, ptr := cow.bytes } } } }
    | none => none
  else some e

/-- `Event::get_type`. -/
def Event.get_type (e : Event) : EventType := e.typ

/-- `Event::get_data::<D>`: `Some` exactly when `D::has_data` accepts the
stored tag; the type parameter `D` is the `Shape` argument. -/
def Event.get_data (e : Event) (D : Shape) : Option Payload :=
  if D.has_data e.typ then some (D.read e.raw.data) else none

/-- `Event::get_ext`: the buffer view for variable-length tags, `None` for
fixed tags, and a panic for a variable-length tag without a buffer. -/
def Event.get_ext (e : Event) : PanicOr (Option (List Nat)) :=
  if Event.has_ext_data e.typ then
    match e.ext with
    | some cow => .ok (some cow.bytes)
    | none => .panic
  else .ok none

/-- `Event::set_subs`. -/
def Event.set_subs (e : Event) : Event :=
  { e with raw := { e.raw with
      dest := { client := SND_SEQ_ADDRESS_SUBSCRIBERS, port := SND_SEQ_ADDRESS_UNKNOWN } } }

/-- `Event::set_source` (truncates the `i32` port to a byte). -/
def Event.set_source (e : Event) (p : Int) : Event :=
  { e with raw := { e.raw with source := { e.raw.source with port := u8cast p } } }

/-- `Event::set_queue` (truncates the `i32` queue id to a byte). -/
def Event.set_queue (e : Event) (q : Int) : Event :=
  { e with raw := { e.raw with queue := u8cast q } }

/-- `Event::get_queue`. -/
def Event.get_queue (e : Event) : Int := (e.raw.queue : Int)

/-- `Event::set_direct`. -/
def Event.set_direct (e : Event) : Event :=
  { e with raw := { e.raw with queue := SND_SEQ_QUEUE_DIRECT } }

/-- `Event::schedule_real`: clears both timestamp mode bit groups, sets the
real-time stamp bit and the relative or absolute mode bit, stores the
queue byte and writes `tv_sec` (truncated `as c_uint`) and `tv_nsec`. -/
def Event.schedule_real (e : Event) (queue : Int) (relative : Bool) (rtime : Duration) : Event :=
  let f1 := e.raw.flags &&& (255 ^^^ (SND_SEQ_TIME_STAMP_MASK ||| SND_SEQ_TIME_MODE_MASK))
  let f2 := f1 ||| (SND_SEQ_TIME_STAMP_REAL |||
                    (if relative then SND_SEQ_TIME_MODE_REL else SND_SEQ_TIME_MODE_ABS))
  { e with raw := { e.raw with
      flags := f2, queue := u8cast queue,
      time := { w0 := rtime.as_secs % 2 ^ 32, w1 := rtime.subsec_nanos } } }

/-- `Event::schedule_tick`: clears both timestamp mode bit groups, sets the
tick stamp bit (zero) and the relative or absolute mode bit, stores the
queue byte and writes the tick word, leaving the second word alone. -/
def Event.schedule_tick (e : Event) (queue : Int) (relative : Bool) (ttime : Nat) : Event :=
  let f1 := e.raw.flags &&& (255 ^^^ (SND_SEQ_TIME_STAMP_MASK ||| SND_SEQ_TIME_MODE_MASK))
  let f2 := f1 ||| (SND_SEQ_TIME_STAMP_TICK |||
                    (if relative then SND_SEQ_TIME_MODE_REL else SND_SEQ_TIME_MODE_ABS))
  { e with raw := { e.raw with
      flags := f2, queue := u8cast queue,
      time := { e.raw.time with w0 := ttime } } }

/-- `Event::get_relative`. -/
def Event.get_relative (e : Event) : Bool :=
  decide (e.raw.flags &&& SND_SEQ_TIME_MODE_REL ≠ 0)

/-- `Event::get_time`: the real-time stamp when the real-time bit is set. -/
def Event.get_time (e : Event) : Option Duration :=
  if e.raw.flags &&& SND_SEQ_TIME_STAMP_REAL ≠ 0 then
    some (Duration.new e.raw.time.w0 e.raw.time.w1)
  else none

/-- `Event::get_tick`: the tick stamp when the real-time bit is clear. -/
def Event.get_tick (e : Event) : Option Nat :=
  if e.raw.flags &&& SND_SEQ_TIME_STAMP_REAL = 0 then
    some e.raw.time.w0
  else none

/-- `Event::get_priority`. -/
def Event.get_priority (e : Event) : Bool :=
  decide (e.raw.flags &&& SND_SEQ_PRIORITY_HIGH ≠ 0)

/-- `Event::set_priority`. -/
def Event.set_priority (e : Event) (is_high_prio : Bool) : Event :=
  if is_high_prio then
    { e with raw := { e.raw with flags := e.raw.flags ||| SND_SEQ_PRIORITY_HIGH } }
  else
    { e with raw := { e.raw with flags := e.raw.flags &&& (255 ^^^ SND_SEQ_PRIORITY_HIGH) } }

/- The Seq / Input checkout discipline. The only state the Rust code
consults is the `cell::Cell<bool>` in field `.1` of `Seq` (true while an
`Input` object is alive), so the state is modelled as that `Bool`. -/

/-- `Seq::check_has_input`: panics while an `Input` object is alive. -/
def Seq.check_has_input (has_input : Bool) : PanicOr Unit :=
  if has_input then .panic else .ok ()

/-- `Input::new` (the body of `Seq::input`): checks the cell, then sets it.
The result is the new value of the cell. -/
def Input.new (has_input : Bool) : PanicOr Bool :=
  match Seq.check_has_input has_input with
  | .panic => .panic
  | .ok _ => .ok true

/-- `Seq::input`, which just delegates to `Input::new`. -/
def Seq.input (has_input : Bool) : PanicOr Bool := Input.new has_input

/-- `impl Drop for Input`: unconditionally clears the cell. -/
def Input.drop (_ : Bool) : Bool := false

/- The input channel behind `Input::event_input` and
`Input::event_input_pending`. The native sequencer side lives in alsa-lib,
not in this repository, so it is modelled from the spec (sections 4.3 and
4.4): the channel holds a queue of buffered-and-ready events;
`pending_count` returns its size; `blocking_read` extracts exactly one
event. A read counter instruments how many blocking extractions ran. -/

/-- Modelled from the spec: the state of the native receive side
(`snd_seq_t` input buffer), missing from src. `pending` is the queue of
buffered-and-ready events, `reads` counts blocking extractions. -/
structure SeqInputState where
  pending : List Event
  reads : Nat
  deriving DecidableEq, Repr

/-- Modelled from the spec: `snd_seq_event_input_pending` (behind
`Input::event_input_pending`) returns the number of buffered-and-ready
events; the `fetch_sequencer` flag only controls cache refresh, not the
returned count. -/
def Input.event_input_pending (s : SeqInputState) (_fetch_sequencer : Bool) : Nat :=
  s.pending.length

/-- Modelled from the spec: `snd_seq_event_input` (behind
`Input::event_input`) blocks until an event is available, then extracts
exactly one; `none` stands for the blocked case. -/
def Input.event_input (s : SeqInputState) : Option (Event × SeqInputState) :=
  match s.pending with
  | [] => none
  | e :: rest => some (e, { pending := rest, reads := s.reads + 1 })

/-- The value of one poll of the stream: `Async::Pending` or
`Async::Ready(Some(event))`. -/
inductive PollResult where
  | pending : PollResult
  | ready : Event → PollResult
  deriving DecidableEq, Repr

/-- `InputStream::poll_next`: queries the pending count with forced
refresh; reports pending when zero, otherwise performs one blocking
extraction and reports the event. -/
def InputStream.poll_next (s : SeqInputState) : PollResult × SeqInputState :=
  if Input.event_input_pending s true = 0 then (.pending, s)
  else
    match Input.event_input s with
    | some (e, s2) => (.ready e, s2)
    | none => (.pending, s)

/- The sequencer output operations. The native call is abstracted as a
function from the record that crosses the boundary to the returned code;
each operation first runs `ensure_buf` (whose panic propagates) and then
hands the mutated record to the native call, returning the mutated event
and the code. -/

/-- `Seq::event_output`: `e.ensure_buf()` then `snd_seq_event_output`. -/
def Seq.event_output (native : EventRec → Int) (e : Event) : Option (Event × Int) :=
  (e.ensure_buf).map (fun e2 => (e2, native e2.raw))

/-- `Seq::event_output_buffer`: `e.ensure_buf()` then
`snd_seq_event_output_buffer`. -/
def Seq.event_output_buffer (native : EventRec → Int) (e : Event) : Option (Event × Int) :=
  (e.ensure_buf).map (fun e2 => (e2, native e2.raw))

/-- `Seq::event_output_direct`: `e.ensure_buf()` then
`snd_seq_event_output_direct`. -/
def Seq.event_output_direct (native : EventRec → Int) (e : Event) : Option (Event × Int) :=
  (e.ensure_buf).map (fun e2 => (e2, native e2.raw))

/- The byte-stream codec. `MidiEvent::decode` calls `ensure_buf` on the
event and then `snd_midi_event_decode`, which lives in alsa-lib, not in
this repository; the native part is therefore modelled from the spec. -/

/-- Modelled from the spec: `snd_midi_event_decode`, missing from src.
Converts one sequencer event record into MIDI wire bytes written at the
start of the caller buffer and returns how many bytes were produced. Only
the system-exclusive case is needed here: per the spec (sections 6 and 8),
a Sysex event record carries its wire bytes verbatim in its
variable-length payload, so the codec copies `len` bytes from `ptr` into
the buffer and reports `len`; an undersized buffer is a native error, and
other event kinds are left unmodelled (`error` as well). -/
def snd_midi_event_decode (buf : List Nat) (ev : EventRec) :
    Except Unit (Nat × List Nat) :=
  match ev.etype with
  | .Sysex =>
      if ev.data.ext.len ≤ buf.length then
        .ok (ev.data.ext.len, ev.data.ext.ptr.take ev.data.ext.len
                                ++ buf.drop ev.data.ext.len)
      else .error ()
  | _ => .error ()

/-- `MidiEvent::decode`: runs `ev.ensure_buf()` (panic propagates as the
outer `Option`) and then the native decode; returns the bytes consumed,
the rewritten buffer and the mutated event. -/
def MidiEvent.decode (buf : List Nat) (e : Event) :
    Option (Except Unit (Nat × List Nat × Event)) :=
  (e.ensure_buf).map (fun e2 =>
    (snd_midi_event_decode buf e2.raw).map (fun r => (r.1, r.2, e2)))

/- Sample data used by witnesses and counterexamples. -/

/-- The system-exclusive payload of the spec round-trip property. -/
def sysexBytes : List Nat := [0xF0, 1, 2, 3, 4, 5, 6, 7, 0xF7]

/-- A sample fixed-shape event: a zeroed Note event. -/
def sampleNoteEvent : Event :=
  { raw := EventRec.zeroed .Note, typ := .Note, ext := none }

/-- A sample variable-length event borrowing its buffer. -/
def sampleBorrowedEvent : Event :=
  { raw := EventRec.zeroed .Sysex, typ := .Sysex, ext := some (.borrowed sysexBytes) }

/-- A sample variable-length event owning its buffer. -/
def sampleOwnedEvent : Event :=
  { raw := EventRec.zeroed .Sysex, typ := .Sysex, ext := some (.owned sysexBytes) }

/-- A variable-length event without a buffer (not constructible through the
public constructors, but `get_ext` must panic on it). -/
def sampleBufferlessEvent : Event :=
  { raw := EventRec.zeroed .Sysex, typ := .Sysex, ext := none }

/-- C1: for every tag in the 59-tag enumeration exactly one payload-shape
classification applies (the eleven `EventData::has_data` predicates plus
`Event::has_ext_data` counted as one shape), and consequently on any event
exactly one shape yields `Some` from `get_data` (with `get_ext` standing
for the variable-length classification). -/
theorem c1_exactly_one_payload_shape :
    (∀ t : EventType, shapeCount t = 1) ∧
    (∀ e : Event,
      (allShapes.map (fun D => (e.get_data D).isSome)).count true
        + (if Event.has_ext_data e.typ then 1 else 0) = 1) := by
  constructor
  · intro t
    cases t <;> rfl
  · intro e
    obtain ⟨r, ty, ex⟩ := e
    cases ty <;> rfl

/-- C2: while an `Input` object is alive (the cell is set), `Seq::input`
panics; dropping the `Input` clears the cell unconditionally, and a
subsequent `Seq::input` succeeds. -/
theorem c2_single_input_checkout :
    (∀ b : Bool, b = true → Seq.input b = .panic) ∧
    (∀ b : Bool, Input.drop b = false) ∧
    (∀ b : Bool, Seq.input (Input.drop b) = .ok true) := by
  refine ⟨?_, ?_, ?_⟩
  · intro b hb
    subst hb
    rfl
  · intro b
    rfl
  · intro b
    rfl

/-- Closed witness for C2 at the concrete state with an `Input` alive. -/
theorem c2_single_input_checkout_witness :
    Seq.input true = .panic ∧ Input.drop true = false ∧
      Seq.input (Input.drop true) = .ok true :=
  ⟨c2_single_input_checkout.1 true rfl,
   c2_single_input_checkout.2.1 true,
   c2_single_input_checkout.2.2 true⟩

/-- C5: `Event::new` panics exactly when the tag carries variable-length
data, and `Event::new_ext` panics exactly when it does not; `new_ext`
accepts an owned buffer and a borrowed slice alike. -/
theorem c5_constructor_shape_checks :
    ∀ (t : EventType) (p : Payload) (b : List Nat),
      (Event.new t p = .panic ↔ Event.has_ext_data t = true) ∧
      (Event.new_ext t (.borrowed b) = .panic ↔ Event.has_ext_data t = false) ∧
      (Event.new_ext t (.owned b) = .panic ↔ Event.has_ext_data t = false) := by
  intro t p b
  cases h : Event.has_ext_data t <;>
    simp [Event.new, Event.new_ext, h]

/-- C6: `into_owned` never fails, keeps the native record, the tag and the
payload bytes unchanged, is the identity on buffer-less and owned events,
and is idempotent. -/
theorem c6_into_owned_total_idempotent :
    ∀ e : Event,
      (e.into_owned.raw = e.raw ∧ e.into_owned.typ = e.typ) ∧
      e.into_owned.ext.map Cow.bytes = e.ext.map Cow.bytes ∧
      (e.ext = none → e.into_owned = e) ∧
      (∀ b, e.ext = some (.owned b) → e.into_owned = e) ∧
      e.into_owned.into_owned = e.into_owned := by
  intro e
  obtain ⟨r, t, ex⟩ := e
  cases ex with
  | none => simp [Event.into_owned]
  | some c => cases c <;> simp [Event.into_owned, Cow.to_owned, Cow.bytes]

/-- Closed witness for C6 at concrete borrowed, owned and fixed events. -/
theorem c6_into_owned_witness :
    sampleBorrowedEvent.into_owned.ext.map Cow.bytes
        = sampleBorrowedEvent.ext.map Cow.bytes ∧
      sampleBorrowedEvent.into_owned.into_owned = sampleBorrowedEvent.into_owned ∧
      sampleOwnedEvent.into_owned = sampleOwnedEvent ∧
      sampleNoteEvent.into_owned = sampleNoteEvent :=
  ⟨(c6_into_owned_total_idempotent sampleBorrowedEvent).2.1,
   (c6_into_owned_total_idempotent sampleBorrowedEvent).2.2.2.2,
   (c6_into_owned_total_idempotent sampleOwnedEvent).2.2.2.1 sysexBytes rfl,
   (c6_into_owned_total_idempotent sampleNoteEvent).2.2.1 rfl⟩

/-- C9: `get_ext` returns the buffer view whenever the tag carries
variable-length data and a buffer is present, returns `None` for
fixed-shape tags, and panics for a variable-length tag with no buffer. -/
theorem c9_get_ext_cases :
    ∀ e : Event,
      (∀ c : Cow, Event.has_ext_data e.typ = true → e.ext = some c →
        e.get_ext = .ok (some c.bytes)) ∧
      (Event.has_ext_data e.typ = false → e.get_ext = .ok none) ∧
      (Event.has_ext_data e.typ = true → e.ext = none → e.get_ext = .panic) := by
  intro e
  refine ⟨?_, ?_, ?_⟩
  · intro c h hc
    simp [Event.get_ext, h, hc]
  · intro h
    simp [Event.get_ext, h]
  · intro h hc
    simp [Event.get_ext, h, hc]

/-- Closed witness for C9 at concrete variable-length, fixed and
buffer-less events. -/
theorem c9_get_ext_witness :
    sampleBorrowedEvent.get_ext = .ok (some sysexBytes) ∧
      sampleNoteEvent.get_ext = .ok none ∧
      sampleBufferlessEvent.get_ext = .panic :=
  ⟨(c9_get_ext_cases sampleBorrowedEvent).1 (.borrowed sysexBytes) rfl rfl,
   (c9_get_ext_cases sampleNoteEvent).2.1 rfl,
   (c9_get_ext_cases sampleBufferlessEvent).2.2 rfl rfl⟩

/-- Helper for C4: a record produced by `ensure_buf` is a fixed point of
`ensure_buf` (the rewritten length and pointer fields are recomputed from
the unchanged buffer). -/
theorem ensure_buf_fixed_point (e e2 : Event) (h : e.ensure_buf = some e2) :
    e2.ensure_buf = some e2 := by
  obtain ⟨⟨et, fl, tg, qu, so, de, ti, dn, dc, da, dco, dq, dr, d8, dext⟩, ty, ex⟩ := e
  cases hx : Event.has_ext_data ty
  · simp [Event.ensure_buf, hx] at h
    subst h
    simp [Event.ensure_buf, hx]
  · cases ex with
    | none => simp [Event.ensure_buf, hx] at h
    | some cow =>
        simp [Event.ensure_buf, hx] at h
        subst h
        simp [Event.ensure_buf, hx]

/-- C4: `ensure_buf` succeeds whenever a buffer is present for
variable-length tags, is idempotent, is the identity on fixed-shape tags,
and each of the three output operations hands the native call the record
normalized exactly once (pre-normalizing is absorbed). -/
theorem c4_ensure_buf_idempotent_once :
    (∀ e : Event, (Event.has_ext_data e.typ = true → e.ext.isSome = true) →
      (e.ensure_buf).isSome = true) ∧
    (∀ e : Event, (e.ensure_buf).bind Event.ensure_buf = e.ensure_buf) ∧
    (∀ e : Event, Event.has_ext_data e.typ = false → e.ensure_buf = some e) ∧
    (∀ (native : EventRec → Int) (e : Event),
      Seq.event_output native e = (e.ensure_buf).bind (Seq.event_output native) ∧
      Seq.event_output_buffer native e
        = (e.ensure_buf).bind (Seq.event_output_buffer native) ∧
      Seq.event_output_direct native e
        = (e.ensure_buf).bind (Seq.event_output_direct native)) := by
  have habs : ∀ (native : EventRec → Int) (e : Event),
      (e.ensure_buf).map (fun e2 => (e2, native e2.raw))
        = (e.ensure_buf).bind
            (fun e2 => (e2.ensure_buf).map (fun e3 => (e3, native e3.raw))) := by
    intro native e
    cases h : e.ensure_buf with
    | none => rfl
    | some e2 => simp [ensure_buf_fixed_point e e2 h]
  refine ⟨?_, ?_, ?_, ?_⟩
  · intro e h
    cases hx : Event.has_ext_data e.typ
    · simp [Event.ensure_buf, hx]
    · rcases hs : e.ext with _ | c
      · rw [hs] at h
        simp [hx] at h
      · simp [Event.ensure_buf, hx, hs]
  · intro e
    cases h : e.ensure_buf with
    | none => rfl
    | some e2 => simp [ensure_buf_fixed_point e e2 h]
  · intro e h
    simp [Event.ensure_buf, h]
  · intro native e
    exact ⟨habs native e, habs native e, habs native e⟩

/-- Closed witness for C4 at a concrete variable-length event with a
buffer and a concrete fixed-shape event. -/
theorem c4_ensure_buf_witness :
    (sampleBorrowedEvent.ensure_buf).isSome = true ∧
      sampleNoteEvent.ensure_buf = some sampleNoteEvent ∧
      Seq.event_output (fun _ => 0) sampleBorrowedEvent
        = (sampleBorrowedEvent.ensure_buf).bind (Seq.event_output (fun _ => 0)) :=
  ⟨c4_ensure_buf_idempotent_once.1 sampleBorrowedEvent (fun _ => rfl),
   c4_ensure_buf_idempotent_once.2.2.1 sampleNoteEvent rfl,
   (c4_ensure_buf_idempotent_once.2.2.2 (fun _ => 0) sampleBorrowedEvent).1⟩

/-- C3: a poll with zero pending events reports pending and leaves the
channel untouched (no blocking extraction: the read counter is unchanged);
a poll with a nonzero pending count extracts exactly one event, reports it
ready, and decrements the pending count by one. -/
theorem c3_poll_next_lazy_single_read :
    (∀ s : SeqInputState, Input.event_input_pending s true = 0 →
      InputStream.poll_next s = (.pending, s)) ∧
    (∀ (s : SeqInputState) (e : Event) (rest : List Event),
      s.pending = e :: rest →
        InputStream.poll_next s = (.ready e, ⟨rest, s.reads + 1⟩) ∧
        Input.event_input_pending ⟨rest, s.reads + 1⟩ true + 1
          = Input.event_input_pending s true) := by
  constructor
  · intro s h
    simp [InputStream.poll_next, h]
  · intro s e rest h
    obtain ⟨p, rd⟩ := s
    simp only at h
    subst h
    constructor
    · simp [InputStream.poll_next, Input.event_input_pending, Input.event_input]
    · simp [Input.event_input_pending]

/-- Closed witness for C3 at the empty channel and at a one-event channel. -/
theorem c3_poll_next_witness :
    InputStream.poll_next ⟨[], 5⟩ = (.pending, ⟨[], 5⟩) ∧
      InputStream.poll_next ⟨[sampleNoteEvent], 5⟩
        = (.ready sampleNoteEvent, ⟨[], 6⟩) ∧
      Input.event_input_pending ⟨([] : List Event), 6⟩ true + 1
        = Input.event_input_pending ⟨[sampleNoteEvent], 5⟩ true :=
  ⟨c3_poll_next_lazy_single_read.1 ⟨[], 5⟩ rfl,
   (c3_poll_next_lazy_single_read.2 ⟨[sampleNoteEvent], 5⟩ sampleNoteEvent [] rfl).1,
   (c3_poll_next_lazy_single_read.2 ⟨[sampleNoteEvent], 5⟩ sampleNoteEvent [] rfl).2⟩

/-- The event built by `Event::new_ext(EventType::Sysex, ...)` on the
spec round-trip payload. -/
def sysexEvent : Event :=
  { raw := { EventRec.zeroed .Sysex with flags := 0 ||| Event.get_length_flag .Sysex },
    typ := .Sysex, ext := some (.borrowed sysexBytes) }

/-- C7: constructing a Sysex event over the nine-byte payload and running
it through `MidiEvent::decode` on a nine-byte scratch buffer consumes
exactly nine bytes and writes back exactly the payload bytes, which equal
the bytes returned by the `get_ext` accessor. -/
theorem c7_sysex_decode_consumes_nine :
    Event.new_ext .Sysex (.borrowed sysexBytes) = .ok sysexEvent ∧
    (MidiEvent.decode (List.replicate 9 0) sysexEvent).map
        (fun r => r.map (fun x => (x.1, x.2.1))) = some (.ok (9, sysexBytes)) ∧
    sysexEvent.get_ext = .ok (some sysexBytes) ∧
    sysexBytes.length = 9 :=
  ⟨rfl, rfl, rfl, rfl⟩

/-- Bit helper: masking with `1` extracts bit zero. -/
theorem landBit0_eq (a : Nat) : a &&& 1 = (a.testBit 0).toNat := by
  have := Nat.and_two_pow a 0
  simpa using this

/-- Bit helper: masking with `2` extracts bit one. -/
theorem landBit1_eq (a : Nat) : a &&& 2 = (a.testBit 1).toNat * 2 := by
  have := Nat.and_two_pow a 1
  simpa using this

/-- Bit helper: the timestamp bits of flags cleared with the mask `252`
contribute nothing to bit zero. -/
theorem maskedFlags_bit0 (x c : Nat) :
    ((x &&& 252) ||| c).testBit 0 = c.testBit 0 := by
  simp [Nat.testBit_lor, Nat.testBit_land, show Nat.testBit 252 0 = false from rfl]

/-- Bit helper: the timestamp bits of flags cleared with the mask `252`
contribute nothing to bit one. -/
theorem maskedFlags_bit1 (x c : Nat) :
    ((x &&& 252) ||| c).testBit 1 = c.testBit 1 := by
  simp [Nat.testBit_lor, Nat.testBit_land, show Nat.testBit 252 1 = false from rfl]

/-- C8 counterexample: the claim promises `get_time = Some d` for every
duration, but `schedule_real` stores `tv_sec` through an `as c_uint`
truncation, so a duration of `2 ^ 32` seconds reads back as zero seconds. -/
theorem c8_schedule_counterexample :
    (sampleNoteEvent.schedule_real 0 false ⟨2 ^ 32, 0⟩).get_time
        ≠ some (⟨2 ^ 32, 0⟩ : Duration) ∧
      (sampleNoteEvent.schedule_real 0 false ⟨2 ^ 32, 0⟩).get_time
        = some (⟨0, 0⟩ : Duration) := by
  constructor <;> decide

/-- C8 (amended): for queue ids representable in the queue byte and
durations whose seconds fit the 32-bit `tv_sec` word (subsecond
nanoseconds are below `10 ^ 9` by the `Duration` invariant), the
scheduling setters mutate the flags and the timestamp union consistently:
`schedule_tick` makes `get_tick` return the tick and `get_time` return
`None`, `schedule_real` makes `get_time` return the duration and
`get_tick` return `None`, and both store the queue and the
relative/absolute flag as given. -/
theorem c8_schedule_setters_amended
    (e : Event) (q : Int) (r : Bool) (t : Nat) (d : Duration)
    (hq0 : 0 ≤ q) (hq1 : q < 256)
    (hs : d.secs < 2 ^ 32) (hn : d.nanos < 1000000000) :
    (e.schedule_real q r d).get_time = some d ∧
    (e.schedule_real q r d).get_tick = none ∧
    (e.schedule_real q r d).get_queue = q ∧
    (e.schedule_real q r d).get_relative = r ∧
    (e.schedule_tick q r t).get_tick = some t ∧
    (e.schedule_tick q r t).get_time = none ∧
    (e.schedule_tick q r t).get_queue = q ∧
    (e.schedule_tick q r t).get_relative = r := by
  obtain ⟨ds, dn⟩ := d
  simp only at hs hn
  have hb0r : ∀ x m : Nat, ((x &&& 252) ||| (1 ||| m)) &&& 1 = 1 := by
    intro x m
    rw [landBit0_eq, maskedFlags_bit0]
    simp [Nat.testBit_lor]
  have hb0t : ∀ x : Nat, ∀ r2 : Bool,
      ((x &&& 252) ||| (0 ||| (if r2 then 2 else 0))) &&& 1 = 0 := by
    intro x r2
    rw [landBit0_eq, maskedFlags_bit0]
    cases r2 <;> rfl
  have hb1r : ∀ x : Nat, ∀ r2 : Bool,
      decide ((((x &&& 252) ||| (1 ||| (if r2 then 2 else 0))) &&& 2) ≠ 0) = r2 := by
    intro x r2
    rw [landBit1_eq, maskedFlags_bit1]
    cases r2 <;> rfl
  have hb1t : ∀ x : Nat, ∀ r2 : Bool,
      decide ((((x &&& 252) ||| (0 ||| (if r2 then 2 else 0))) &&& 2) ≠ 0) = r2 := by
    intro x r2
    rw [landBit1_eq, maskedFlags_bit1]
    cases r2 <;> rfl
  have hqeq : ((u8cast q : Nat) : Int) = q := by
    simp only [u8cast]
    omega
  have hmod : ds % 4294967296 = ds := Nat.mod_eq_of_lt (by omega)
  simp only [Event.schedule_real, Event.schedule_tick, Event.get_time,
    Event.get_tick, Event.get_queue, Event.get_relative,
    SND_SEQ_TIME_STAMP_MASK, SND_SEQ_TIME_MODE_MASK, SND_SEQ_TIME_STAMP_REAL,
    SND_SEQ_TIME_STAMP_TICK, SND_SEQ_TIME_MODE_REL, SND_SEQ_TIME_MODE_ABS,
    Duration.as_secs, Duration.subsec_nanos,
    show (255 ^^^ (1 ||| 2) : Nat) = 252 from rfl]
  rw [hb0r, hb0t, hb1r, hb1t]
  refine ⟨?_, by simp, by simpa using hqeq, rfl, by simp, by simp, by simpa using hqeq, rfl⟩
  have hdur : Duration.new ds dn = ⟨ds, dn⟩ := by
    have h1 : dn / 1000000000 = 0 := Nat.div_eq_of_lt hn
    have h2 : dn % 1000000000 = dn := Nat.mod_eq_of_lt hn
    simp [Duration.new, h1, h2]
  simp [hmod, hdur]

/-- Closed witness for the amended C8 at queue 5, relative scheduling,
tick 77 and a duration of 3 seconds and 500 nanoseconds. -/
theorem c8_schedule_setters_witness :
    (0 ≤ (5 : Int) ∧ (5 : Int) < 256 ∧
        (Duration.mk 3 500).secs < 2 ^ 32 ∧ (Duration.mk 3 500).nanos < 1000000000) ∧
      (sampleNoteEvent.schedule_real 5 true ⟨3, 500⟩).get_time = some ⟨3, 500⟩ ∧
      (sampleNoteEvent.schedule_real 5 true ⟨3, 500⟩).get_tick = none ∧
      (sampleNoteEvent.schedule_tick 5 true 77).get_tick = some 77 ∧
      (sampleNoteEvent.schedule_tick 5 true 77).get_time = none ∧
      (sampleNoteEvent.schedule_tick 5 true 77).get_queue = 5 ∧
      (sampleNoteEvent.schedule_tick 5 true 77).get_relative = true :=
  ⟨⟨by decide, by decide, by decide, by decide⟩,
   (c8_schedule_setters_amended sampleNoteEvent 5 true 77 ⟨3, 500⟩
      (by decide) (by decide) (by decide) (by decide)).1,
   (c8_schedule_setters_amended sampleNoteEvent 5 true 77 ⟨3, 500⟩
      (by decide) (by decide) (by decide) (by decide)).2.1,
   (c8_schedule_setters_amended sampleNoteEvent 5 true 77 ⟨3, 500⟩
      (by decide) (by decide) (by decide) (by decide)).2.2.2.2.1,
   (c8_schedule_setters_amended sampleNoteEvent 5 true 77 ⟨3, 500⟩
      (by decide) (by decide) (by decide) (by decide)).2.2.2.2.2.1,
   (c8_schedule_setters_amended sampleNoteEvent 5 true 77 ⟨3, 500⟩
      (by decide) (by decide) (by decide) (by decide)).2.2.2.2.2.2.1,
   (c8_schedule_setters_amended sampleNoteEvent 5 true 77 ⟨3, 500⟩
      (by decide) (by decide) (by decide) (by decide)).2.2.2.2.2.2.2⟩

/-- In-range side condition for a fixed-shape payload: every field that the
payload codec truncates on writing (`i32 as c_uchar` for addresses and
queue ids, `u64 as c_uint` for duration seconds) is representable, and the
duration respects the `Duration` nanosecond invariant. Shapes whose codec
uses only identity casts have no condition. -/
def Payload.wf : Payload → Bool
  | .unit => true
  | .raw8 _ => true
  | .note _ => true
  | .ctrl _ => true
  | .addr a =>
      decide (0 ≤ a.client) && decide (a.client < 256) &&
      decide (0 ≤ a.port) && decide (a.port < 256)
  | .connect c =>
      decide (0 ≤ c.sender.client) && decide (c.sender.client < 256) &&
      decide (0 ≤ c.sender.port) && decide (c.sender.port < 256) &&
      decide (0 ≤ c.dest.client) && decide (c.dest.client < 256) &&
      decide (0 ≤ c.dest.port) && decide (c.dest.port < 256)
  | .qcUnit q => decide (0 ≤ q.queue) && decide (q.queue < 256)
  | .qcI32 q => decide (0 ≤ q.queue) && decide (q.queue < 256)
  | .qcU32 q => decide (0 ≤ q.queue) && decide (q.queue < 256)
  | .qcDuration q =>
      decide (0 ≤ q.queue) && decide (q.queue < 256) &&
      decide (q.value.secs < 2 ^ 32) && decide (q.value.nanos < 1000000000)
  | .result _ => true

/-- Helper for C10: a tag accepted by any of the eleven fixed shapes does
not carry variable-length data (a consequence of the C1 partition). -/
theorem fixed_shape_not_ext (D : Shape) (t : EventType)
    (h : D.has_data t = true) : Event.has_ext_data t = false := by
  revert h
  revert t
  revert D
  decide

/-- C10 counterexample: the claim promises `get_data` returns the original
payload for every payload value, but `Addr::set_data` stores the `i32`
client and port through an `as c_uchar` truncation, so client 300 reads
back as 44. -/
theorem c10_roundtrip_counterexample :
    (Event.new .ClientStart (.addr ⟨300, 0⟩)).map (fun e => e.get_data .addr)
        = .ok (some (.addr ⟨44, 0⟩)) ∧
      Payload.addr ⟨44, 0⟩ ≠ Payload.addr ⟨300, 0⟩ := by
  constructor <;> decide

/-- C10 (amended): for every fixed shape `D` and tag accepted by
`D::has_data`, building the event with `Event::new` and reading it back
with `get_data::<D>` returns `Some` of the original payload, provided the
payload is in range for the record fields (no `as c_uchar` or `as c_uint`
truncation occurs); shapes with only identity casts have no side
condition. -/
theorem c10_roundtrip_amended (t : EventType) (p : Payload)
    (hd : p.has_data t = true) (hw : p.wf = true) :
    (Event.new t p).map (fun e => e.get_data p.shape) = .ok (some p) := by
  have hne : Event.has_ext_data t = false := fixed_shape_not_ext p.shape t hd
  cases p with
  | unit =>
      simp [Event.new, hne, PanicOr.map, Event.get_data, Payload.has_data,
        Payload.shape] at hd ⊢
      simp [hd, Shape.read, unit_get_data]
  | raw8 b =>
      simp [Event.new, hne, PanicOr.map, Event.get_data, Payload.has_data,
        Payload.shape] at hd ⊢
      simp [hd, Shape.read, raw8_get_data, raw8_set_data, Payload.set_data]
  | note n =>
      simp [Event.new, hne, PanicOr.map, Event.get_data, Payload.has_data,
        Payload.shape] at hd ⊢
      simp [hd, Shape.read, EvNote.get_data, EvNote.set_data, Payload.set_data]
  | ctrl c =>
      simp [Event.new, hne, PanicOr.map, Event.get_data, Payload.has_data,
        Payload.shape] at hd ⊢
      simp [hd, Shape.read, EvCtrl.get_data, EvCtrl.set_data, Payload.set_data]
  | addr a =>
      obtain ⟨ac, ap⟩ := a
      simp [Payload.wf] at hw
      have e1 : ((u8cast ac : Nat) : Int) = ac := by simp only [u8cast]; omega
      have e2 : ((u8cast ap : Nat) : Int) = ap := by simp only [u8cast]; omega
      simp [Event.new, hne, PanicOr.map, Event.get_data, Payload.has_data,
        Payload.shape] at hd ⊢
      simp [hd, Shape.read, Addr.get_data, Addr.set_data, Payload.set_data, e1, e2]
  | connect c =>
      obtain ⟨⟨sc, sp⟩, ⟨dc, dp⟩⟩ := c
      simp [Payload.wf] at hw
      have e1 : ((u8cast sc : Nat) : Int) = sc := by simp only [u8cast]; omega
      have e2 : ((u8cast sp : Nat) : Int) = sp := by simp only [u8cast]; omega
      have e3 : ((u8cast dc : Nat) : Int) = dc := by simp only [u8cast]; omega
      have e4 : ((u8cast dp : Nat) : Int) = dp := by simp only [u8cast]; omega
      simp [Event.new, hne, PanicOr.map, Event.get_data, Payload.has_data,
        Payload.shape] at hd ⊢
      simp [hd, Shape.read, Connect.get_data, Connect.set_data, Payload.set_data,
        e1, e2, e3, e4]
  | qcUnit q =>
      obtain ⟨qq, qv⟩ := q
      simp [Payload.wf] at hw
      have e1 : ((u8cast qq : Nat) : Int) = qq := by simp only [u8cast]; omega
      simp [Event.new, hne, PanicOr.map, Event.get_data, Payload.has_data,
        Payload.shape] at hd ⊢
      simp [hd, Shape.read, qc_unit_get_data, qc_unit_set_data, Payload.set_data, e1]
  | qcI32 q =>
      obtain ⟨qq, qv⟩ := q
      simp [Payload.wf] at hw
      have e1 : ((u8cast qq : Nat) : Int) = qq := by simp only [u8cast]; omega
      simp [Event.new, hne, PanicOr.map, Event.get_data, Payload.has_data,
        Payload.shape] at hd ⊢
      simp [hd, Shape.read, qc_i32_get_data, qc_i32_set_data, Payload.set_data, e1]
  | qcU32 q =>
      obtain ⟨qq, qv⟩ := q
      simp [Payload.wf] at hw
      have e1 : ((u8cast qq : Nat) : Int) = qq := by simp only [u8cast]; omega
      simp [Event.new, hne, PanicOr.map, Event.get_data, Payload.has_data,
        Payload.shape] at hd ⊢
      simp [hd, Shape.read, qc_u32_get_data, qc_u32_set_data, Payload.set_data, e1]
  | qcDuration q =>
      obtain ⟨qq, ⟨ds, dn⟩⟩ := q
      simp [Payload.wf] at hw
      have e1 : ((u8cast qq : Nat) : Int) = qq := by simp only [u8cast]; omega
      have hmod : ds % 4294967296 = ds := Nat.mod_eq_of_lt (by omega)
      have hdur : Duration.new ds dn = ⟨ds, dn⟩ := by
        have hdiv : dn / 1000000000 = 0 := Nat.div_eq_of_lt (by omega)
        have hrem : dn % 1000000000 = dn := Nat.mod_eq_of_lt (by omega)
        simp [Duration.new, hdiv, hrem]
      simp [Event.new, hne, PanicOr.map, Event.get_data, Payload.has_data,
        Payload.shape] at hd ⊢
      simp [hd, Shape.read, qc_duration_get_data, qc_duration_set_data,
        Payload.set_data, Duration.as_secs, Duration.subsec_nanos, e1, hmod, hdur]
  | result r =>
      simp [Event.new, hne, PanicOr.map, Event.get_data, Payload.has_data,
        Payload.shape] at hd ⊢
      simp [hd, Shape.read, EvResult.get_data, EvResult.set_data, Payload.set_data]

/-- Closed witness for the amended C10 at the Noteon payload of the
loopback test. -/
theorem c10_roundtrip_witness :
    (Payload.note ⟨0, 64, 100, 64, 100⟩).has_data .Noteon = true ∧
      (Payload.note ⟨0, 64, 100, 64, 100⟩).wf = true ∧
      (Event.new .Noteon (.note ⟨0, 64, 100, 64, 100⟩)).map
          (fun e => e.get_data (Payload.note ⟨0, 64, 100, 64, 100⟩).shape)
        = .ok (some (.note ⟨0, 64, 100, 64, 100⟩)) :=
  ⟨by decide, by decide,
   c10_roundtrip_amended .Noteon (.note ⟨0, 64, 100, 64, 100⟩) (by decide) (by decide)⟩
